import Mathlib

/-!
Verification of the blog-post CRUD resource model (models.js) and its HTTP
resource handlers. The record model (schema, the derived authorName virtual,
and the serialize method) is embedded directly from models.js; the four route
handlers live in server.js, which consists only of thin glue, and are modelled
from the specification's contract where noted.
-/

namespace BlogApi

/-- JavaScript template-literal stringification of a possibly absent field:
a present string interpolates as itself, while an absent (undefined) field
interpolates as the literal string "undefined". -/
def jsStr : Option String → String
  | some s => s
  | none   => "undefined"

/-- The whitespace characters removed by JavaScript String.prototype.trim
(the ASCII portion: space, tab, line feed, vertical tab, form feed,
carriage return). -/
def jsWhitespace (c : Char) : Bool :=
  c == ' ' || c == '\t' || c == '\n' || c == '\r' || c == '\x0b' || c == '\x0c'

/-- Model of JavaScript String.prototype.trim: remove leading and trailing
whitespace characters. -/
def jsTrim (s : String) : String :=
  ⟨((s.data.dropWhile jsWhitespace).reverse.dropWhile jsWhitespace).reverse⟩

/-- The nested author value of blogPostSchema: firstName and lastName,
both optional (models.js line 8). -/
structure Author where
  firstName : Option String
  lastName  : Option String
  deriving DecidableEq

/-- A stored blog-post document, per blogPostSchema (models.js lines 6-11):
required title, nested author, optional content, created timestamp, and the
_id assigned by the persistence layer. Timestamps and ids are modelled as
naturals. -/
structure Post where
  _id : Nat
  title : String
  author : Author
  content : Option String
  created : Nat
  deriving DecidableEq

/-- The authorName virtual (models.js lines 13-15): the template literal
interpolates this.author.firstName and this.author.lastName joined by one
space, then .trim() is applied. An unset field interpolates as "undefined". -/
def authorName (p : Post) : String :=
  jsTrim (jsStr p.author.firstName ++ " " ++ jsStr p.author.lastName)

/-- The external JSON representation produced by serialize: exactly the five
fields id, title, author, content, created, with author a plain string. -/
structure SerializedPost where
  id : Nat
  title : String
  author : String
  content : Option String
  created : Nat
  deriving DecidableEq

/-- The serialize method (models.js lines 17-25): projection of the stored
record onto the external representation, with author the derived
authorName string. -/
def serialize (p : Post) : SerializedPost :=
  { id := p._id
    title := p.title
    author := authorName p
    content := p.content
    created := p.created }

/-- Modelled from the spec: the find-by-id operation of the persistence
collaborator (the database driver is external to the repository). The stored
collection is modelled as a list of documents. -/
def findById (db : List Post) (i : Nat) : Option Post :=
  db.find? (fun p => p._id == i)

/-- Body of a POST /posts request: title required, content and the two
author name parts optional. -/
structure CreateInput where
  title : Option String
  content : Option String
  authorFirstName : Option String
  authorLastName : Option String
  deriving DecidableEq

/-- Outcome of a create request: HTTP status, optional JSON body, optional
error message, and the storage state afterwards. -/
structure CreateResult where
  status : Nat
  body : Option SerializedPost
  errorMessage : Option String
  db : List Post
  deriving DecidableEq

/-- Modelled from the spec: the POST /posts handler (server.js is not part of
the sources). A body missing the required title yields 400 with a message
naming the field and persists nothing; otherwise the persistence layer
assigns the fresh id and defaults created to the creation moment, the record
is appended to storage, and its serialized form is returned with 201. -/
def createPost (db : List Post) (newId now : Nat) (x : CreateInput) : CreateResult :=
  match x.title with
  | none =>
      { status := 400
        body := none
        errorMessage := some "Missing required field: title"
        db := db }
  | some t =>
      let p : Post :=
        { _id := newId
          title := t
          author := { firstName := x.authorFirstName, lastName := x.authorLastName }
          content := x.content
          created := now }
      { status := 201
        body := some (serialize p)
        errorMessage := none
        db := db ++ [p] }

/-- Body of a PUT /posts/... request: the body id, plus any subset of title,
content, author.firstName, author.lastName; a field that is none is omitted
from the request body. -/
structure UpdateInput where
  id : Nat
  title : Option String
  content : Option String
  authorFirstName : Option String
  authorLastName : Option String
  deriving DecidableEq

/-- A field sent in the request body overwrites the stored value; an omitted
field keeps it. -/
def mergeField (new old : Option String) : Option String :=
  match new with
  | some v => some v
  | none => old

/-- Modelled from the spec: the partial merge a PUT request performs on the
stored record — only the fields present in the body among title, content,
author.firstName, author.lastName are applied; _id and created are never
touched. -/
def applyUpdate (u : UpdateInput) (p : Post) : Post :=
  { _id := p._id
    title := u.title.getD p.title
    author :=
      { firstName := mergeField u.authorFirstName p.author.firstName
        lastName := mergeField u.authorLastName p.author.lastName }
    content := mergeField u.content p.content
    created := p.created }

/-- Outcome of an update request: HTTP status, optional error message, and
the storage state afterwards (success carries no body). -/
structure UpdateResult where
  status : Nat
  errorMessage : Option String
  db : List Post
  deriving DecidableEq

/-- Modelled from the spec: the PUT /posts/... handler (server.js is not part
of the sources). A body id differing from the path id yields 400 with an
explanatory message and leaves storage unchanged; otherwise the record with
the path id receives the partial merge and 204 is returned with no body. -/
def updatePost (db : List Post) (pathId : Nat) (u : UpdateInput) : UpdateResult :=
  if u.id == pathId then
    { status := 204
      errorMessage := none
      db := db.map (fun p => if p._id == pathId then applyUpdate u p else p) }
  else
    { status := 400
      errorMessage := some "Request path id and request body id values must match"
      db := db }

/-- Outcome of a delete request: HTTP status, body (always empty), and the
storage state afterwards. -/
structure DeleteResult where
  status : Nat
  body : Option SerializedPost
  db : List Post
  deriving DecidableEq

/-- Modelled from the spec: the DELETE /posts/... handler (server.js is not
part of the sources). Always 204 with empty body; the record with the given
id, when present, is removed; deleting an absent id is treated as success. -/
def deletePost (db : List Post) (pathId : Nat) : DeleteResult :=
  { status := 204
    body := none
    db := db.filter (fun p => p._id != pathId) }

theorem applyUpdate_keeps_id (u : UpdateInput) (p : Post) :
    (applyUpdate u p)._id = p._id := rfl

theorem applyUpdate_keeps_created (u : UpdateInput) (p : Post) :
    (applyUpdate u p).created = p.created := rfl

/-- C3: serialize is a pure projection returning exactly the fields id,
title, author, content, created, where the author field is the derived
authorName string (purity and the absence of the nested first/last structure
are enforced by serialize being a function into SerializedPost). -/
theorem serialize_pure_projection (p : Post) :
    serialize p =
      { id := p._id
        title := p.title
        author := authorName p
        content := p.content
        created := p.created } := rfl

/-- C10: serialize and the authorName derivation are total: every post
record, including one whose optional fields were never set, evaluates to a
definite result; the all-unset record evaluates concretely. -/
theorem serialize_authorName_total :
    (∀ p : Post, ∃ s : SerializedPost, serialize p = s ∧
        ∃ a : String, authorName p = a) ∧
    serialize ⟨0, "T", ⟨none, none⟩, none, 0⟩ =
      ⟨0, "T", "undefined undefined", none, 0⟩ := by
  constructor
  · intro p
    exact ⟨serialize p, rfl, authorName p, rfl⟩
  · decide

/-- C1: the claim fails on the code. The template literal stringifies an
absent name part as "undefined" rather than the empty string, so an author
with only the first name "Alice" derives the authorName "Alice undefined",
not "Alice" as the specification states. -/
theorem authorName_absent_lastName_undefined :
    authorName ⟨1, "T", ⟨some "Alice", none⟩, none, 0⟩ = "Alice undefined" ∧
    authorName ⟨1, "T", ⟨some "Alice", none⟩, none, 0⟩ ≠ "Alice" := by
  decide

/-- C4: round-trip — on any valid creation input the created post's
serialized body has the input's title and content exactly, and its author
field is the derived name computed from the submitted firstName/lastName
(a plain string, never the nested author object). -/
theorem create_roundtrip (db : List Post) (newId now : Nat) (x : CreateInput)
    (t : String) (ht : x.title = some t) :
    ∃ s : SerializedPost, (createPost db newId now x).body = some s ∧
      s.title = t ∧ s.content = x.content ∧
      s.author = jsTrim (jsStr x.authorFirstName ++ " " ++ jsStr x.authorLastName) := by
  refine ⟨serialize
    { _id := newId
      title := t
      author := { firstName := x.authorFirstName, lastName := x.authorLastName }
      content := x.content
      created := now }, ?_, rfl, rfl, rfl⟩
  simp only [createPost, ht]

/-- Closed instance of create_roundtrip at a concrete creation input. -/
theorem create_roundtrip_witness :
    (⟨some "T", some "C", some "A", some "B"⟩ : CreateInput).title = some "T" ∧
    ∃ s : SerializedPost,
      (createPost [] 1 2 ⟨some "T", some "C", some "A", some "B"⟩).body = some s ∧
      s.title = "T" ∧ s.content = some "C" ∧
      s.author = jsTrim (jsStr (some "A") ++ " " ++ jsStr (some "B")) :=
  ⟨rfl, create_roundtrip [] 1 2 ⟨some "T", some "C", some "A", some "B"⟩ "T" rfl⟩

/-- C5: a create request whose body omits the required title fails with 400,
carries a message naming the missing field, and leaves storage unchanged. -/
theorem create_missing_title (db : List Post) (newId now : Nat) (x : CreateInput)
    (hx : x.title = none) :
    (createPost db newId now x).status = 400 ∧
    (createPost db newId now x).db = db ∧
    ∃ msg, (createPost db newId now x).errorMessage = some msg ∧
      ∃ pre suf, msg = pre ++ "title" ++ suf := by
  refine ⟨?_, ?_, "Missing required field: title", ?_, "Missing required field: ", "", ?_⟩
  · simp [createPost, hx]
  · simp [createPost, hx]
  · simp [createPost, hx]
  · decide

/-- Closed instance of create_missing_title at a concrete title-less input. -/
theorem create_missing_title_witness :
    (⟨none, some "C", none, none⟩ : CreateInput).title = none ∧
    ((createPost [] 1 2 ⟨none, some "C", none, none⟩).status = 400 ∧
      (createPost [] 1 2 ⟨none, some "C", none, none⟩).db = [] ∧
      ∃ msg, (createPost [] 1 2 ⟨none, some "C", none, none⟩).errorMessage = some msg ∧
        ∃ pre suf, msg = pre ++ "title" ++ suf) :=
  ⟨rfl, create_missing_title [] 1 2 ⟨none, some "C", none, none⟩ rfl⟩

/-- C6: delete is idempotent at the HTTP surface — for every id it returns
204 with an empty body whether or not a matching post existed, and a
subsequent find-by-id on that id returns nothing. -/
theorem delete_idempotent (db : List Post) (i : Nat) :
    (deletePost db i).status = 204 ∧ (deletePost db i).body = none ∧
    findById (deletePost db i).db i = none := by
  refine ⟨rfl, rfl, ?_⟩
  simp only [deletePost, findById]
  rw [List.find?_eq_none]
  intro p hp
  have := (List.mem_filter.mp hp).2
  simp at this
  simp [this]

/-- C7: an update whose body id differs from the path id returns 400 with an
explanatory message and leaves storage unchanged. -/
theorem put_id_mismatch (db : List Post) (pathId : Nat) (u : UpdateInput)
    (h : u.id ≠ pathId) :
    (updatePost db pathId u).status = 400 ∧
    (updatePost db pathId u).db = db ∧
    (updatePost db pathId u).errorMessage =
      some "Request path id and request body id values must match" := by
  have hb : (u.id == pathId) = false := by simpa using h
  simp [updatePost, hb]

/-- Closed instance of put_id_mismatch with body id 2 against path id 1. -/
theorem put_id_mismatch_witness :
    (⟨2, some "T", none, none, none⟩ : UpdateInput).id ≠ 1 ∧
    ((updatePost [] 1 ⟨2, some "T", none, none, none⟩).status = 400 ∧
      (updatePost [] 1 ⟨2, some "T", none, none, none⟩).db = [] ∧
      (updatePost [] 1 ⟨2, some "T", none, none, none⟩).errorMessage =
        some "Request path id and request body id values must match") :=
  ⟨by decide, put_id_mismatch [] 1 ⟨2, some "T", none, none, none⟩ (by decide)⟩

/-- C8: a post created without an explicit created value has its created
field defaulted to the creation moment and its id assigned at creation, and
neither a later update nor a delete ever changes any stored post's id or
created field. -/
theorem created_id_immutable (db : List Post) (newId now pathId delId : Nat)
    (x : CreateInput) (u : UpdateInput) (t : String) (hx : x.title = some t) :
    (∃ p : Post, (createPost db newId now x).db = db ++ [p] ∧
        p._id = newId ∧ p.created = now) ∧
    (∀ p ∈ (updatePost db pathId u).db,
        ∃ q ∈ db, q._id = p._id ∧ q.created = p.created) ∧
    (∀ p ∈ (deletePost db delId).db, p ∈ db) := by
  refine ⟨?_, ?_, ?_⟩
  · refine ⟨{ _id := newId
              title := t
              author := { firstName := x.authorFirstName, lastName := x.authorLastName }
              content := x.content
              created := now }, ?_, rfl, rfl⟩
    simp only [createPost, hx]
  · intro p hp
    by_cases hid : (u.id == pathId) = true
    · simp only [updatePost, hid, if_true] at hp
      obtain ⟨q, hq, hqp⟩ := List.mem_map.mp hp
      refine ⟨q, hq, ?_, ?_⟩
      · cases hqp
        by_cases hq2 : (q._id == pathId) = true
        · simp [hq2, applyUpdate_keeps_id]
        · simp [hq2]
      · cases hqp
        by_cases hq2 : (q._id == pathId) = true
        · simp [hq2, applyUpdate_keeps_created]
        · simp [hq2]
    · simp only [updatePost, hid, if_false] at hp
      exact ⟨p, hp, rfl, rfl⟩
  · intro p hp
    exact (List.mem_filter.mp hp).1

/-- Closed instance of created_id_immutable at concrete storage and
requests. -/
theorem created_id_immutable_witness :
    (⟨some "T", none, some "A", none⟩ : CreateInput).title = some "T" ∧
    ((∃ p : Post, (createPost [] 9 4 ⟨some "T", none, some "A", none⟩).db = [] ++ [p] ∧
        p._id = 9 ∧ p.created = 4) ∧
      (∀ p ∈ (updatePost [] 1 ⟨1, none, none, none, none⟩).db,
          ∃ q ∈ ([] : List Post), q._id = p._id ∧ q.created = p.created) ∧
      (∀ p ∈ (deletePost [] 3).db, p ∈ ([] : List Post))) :=
  ⟨rfl, created_id_immutable [] 9 4 1 3 ⟨some "T", none, some "A", none⟩
    ⟨1, none, none, none, none⟩ "T" rfl⟩

/-- C2: a PUT request whose body id matches the path id applies a partial
merge — every field among title, content, author.firstName, author.lastName
that is omitted from the request body retains its prior stored value after
the update completes. -/
theorem put_partial_merge (db : List Post) (pathId : Nat) (u : UpdateInput)
    (hid : u.id = pathId) (p : Post) (hp : findById db pathId = some p) :
    ∃ q : Post, findById (updatePost db pathId u).db pathId = some q ∧
      (u.title = none → q.title = p.title) ∧
      (u.content = none → q.content = p.content) ∧
      (u.authorFirstName = none → q.author.firstName = p.author.firstName) ∧
      (u.authorLastName = none → q.author.lastName = p.author.lastName) := by
  have hp2 : List.find? (fun r : Post => r._id == pathId) db = some p := hp
  have hpid : p._id = pathId := by
    simpa using List.find?_some hp2
  have hdb : (updatePost db pathId u).db =
      db.map (fun r => if r._id == pathId then applyUpdate u r else r) := by
    simp [updatePost, hid]
  refine ⟨applyUpdate u p, ?_, ?_, ?_, ?_, ?_⟩
  · rw [hdb]
    unfold findById at hp ⊢
    rw [List.find?_map]
    have hcomp : ((fun r : Post => r._id == pathId) ∘
        (fun r => if r._id == pathId then applyUpdate u r else r)) =
        (fun r : Post => r._id == pathId) := by
      funext r
      simp only [Function.comp]
      by_cases h : r._id = pathId
      · simp [h, applyUpdate_keeps_id]
      · simp [h]
    rw [hcomp, hp]
    simp [hpid]
  · intro h
    simp [applyUpdate, h]
  · intro h
    simp [applyUpdate, mergeField, h]
  · intro h
    simp [applyUpdate, mergeField, h]
  · intro h
    simp [applyUpdate, mergeField, h]

/-- Closed instance of put_partial_merge: a title-only update of a stored
post with id 5. -/
theorem put_partial_merge_witness :
    ((⟨5, some "New", none, none, none⟩ : UpdateInput).id = 5 ∧
      findById [⟨5, "Old", ⟨some "A", some "B"⟩, some "C", 7⟩] 5 =
        some ⟨5, "Old", ⟨some "A", some "B"⟩, some "C", 7⟩) ∧
    ∃ q : Post,
      findById (updatePost [⟨5, "Old", ⟨some "A", some "B"⟩, some "C", 7⟩] 5
          ⟨5, some "New", none, none, none⟩).db 5 = some q ∧
      ((⟨5, some "New", none, none, none⟩ : UpdateInput).title = none →
        q.title = (⟨5, "Old", ⟨some "A", some "B"⟩, some "C", 7⟩ : Post).title) ∧
      ((⟨5, some "New", none, none, none⟩ : UpdateInput).content = none →
        q.content = some "C") ∧
      ((⟨5, some "New", none, none, none⟩ : UpdateInput).authorFirstName = none →
        q.author.firstName = some "A") ∧
      ((⟨5, some "New", none, none, none⟩ : UpdateInput).authorLastName = none →
        q.author.lastName = some "B") :=
  ⟨⟨rfl, by decide⟩,
    put_partial_merge [⟨5, "Old", ⟨some "A", some "B"⟩, some "C", 7⟩] 5
      ⟨5, some "New", none, none, none⟩ rfl
      ⟨5, "Old", ⟨some "A", some "B"⟩, some "C", 7⟩ (by decide)⟩

theorem jsTrim_leading_space (l : String) : jsTrim ("" ++ " " ++ l) = jsTrim l := rfl

/-- C9: for a post whose author name parts are both present strings, an empty
firstName makes authorName the trimmed lastName, and two empty parts make it
the empty string — the trim removes the separator space. -/
theorem authorName_empty_string_parts (p : Post) (l : String)
    (hf : p.author.firstName = some "") (hl : p.author.lastName = some l) :
    authorName p = jsTrim l ∧ (l = "" → authorName p = "") := by
  have h1 : authorName p = jsTrim ("" ++ " " ++ l) := by
    simp [authorName, jsStr, hf, hl]
  rw [h1, jsTrim_leading_space]
  refine ⟨rfl, ?_⟩
  intro hl0
  rw [hl0]
  rfl

/-- Closed instance of authorName_empty_string_parts: empty firstName and a
lastName needing trimming. -/
theorem authorName_empty_string_parts_witness :
    ((⟨3, "T", ⟨some "", some " Bo "⟩, none, 0⟩ : Post).author.firstName = some "" ∧
      (⟨3, "T", ⟨some "", some " Bo "⟩, none, 0⟩ : Post).author.lastName = some " Bo ") ∧
    (authorName ⟨3, "T", ⟨some "", some " Bo "⟩, none, 0⟩ = jsTrim " Bo " ∧
      (" Bo " = "" → authorName ⟨3, "T", ⟨some "", some " Bo "⟩, none, 0⟩ = "")) :=
  ⟨⟨rfl, rfl⟩,
    authorName_empty_string_parts ⟨3, "T", ⟨some "", some " Bo "⟩, none, 0⟩ " Bo " rfl rfl⟩

end BlogApi
